import Mathlib

/-!
Shallow embedding of the resilient request-execution core of
`src/script.js` (class `ErrorHandler` and the `ErrorUtils` helpers):
error classification, backoff computation, the circuit-breaker state,
aggregate statistics, and the retry loop `makeRequestWithRetry`.

Time is a virtual clock (`now : Nat`, milliseconds): invoking the
simulated operation advances the clock by its duration, and each
backoff wait advances it by the computed delay.  The caller-supplied
operation is modelled as a function from the attempt index to its
resolved outcome, which captures any fixed resolution of the
randomness in `simulateAPIRequest`.
-/

/-- Outcome of one invocation of the simulated API operation
(`simulateAPIRequest` resolves, or rejects with an error message). -/
inductive APIResult where
  | ok : APIResult
  | err : String → APIResult
deriving DecidableEq

/-- Final outcome of `makeRequestWithRetry`: the JS function either
returns a result or throws the last error to its caller. -/
inductive ExecResult where
  | success : ExecResult
  | failure : String → ExecResult
deriving DecidableEq

/-- `this.stats` of `ErrorHandler` (constructor, script.js lines 5-12).
`errorTypes` is the object used as a map from error name to count,
embedded as an association list with unique keys. -/
structure Stats where
  totalRequests : Nat
  successfulRequests : Nat
  failedRequests : Nat
  totalRetries : Nat
  responseTimes : List Nat
  errorTypes : List (String × Nat)
deriving DecidableEq

/-- The fresh `this.stats` built by the constructor. -/
def initialStats : Stats :=
  { totalRequests := 0, successfulRequests := 0, failedRequests := 0,
    totalRetries := 0, responseTimes := [], errorTypes := [] }

/-- `this.circuitBreakerState` (constructor, script.js lines 15-21). -/
structure CircuitBreakerState where
  isOpen : Bool
  failureCount : Nat
  lastFailureTime : Option Nat
  threshold : Nat
  timeout : Nat
deriving DecidableEq

/-- The fresh `this.circuitBreakerState` built by the constructor:
threshold 3 failures, open duration 30000 ms. -/
def initialCircuitBreakerState : CircuitBreakerState :=
  { isOpen := false, failureCount := 0, lastFailureTime := none,
    threshold := 3, timeout := 30000 }

/-- `resetCircuitBreaker` (script.js lines 304-308). -/
def resetCircuitBreaker (cb : CircuitBreakerState) : CircuitBreakerState :=
  { cb with failureCount := 0, isOpen := false, lastFailureTime := none }

/-- `incrementCircuitBreakerFailures` (script.js lines 294-302), with
`Date.now()` passed in as `now`. -/
def incrementCircuitBreakerFailures (now : Nat) (cb : CircuitBreakerState) :
    CircuitBreakerState :=
  let cb1 := { cb with failureCount := cb.failureCount + 1,
                       lastFailureTime := some now }
  if cb1.failureCount ≥ cb1.threshold then { cb1 with isOpen := true } else cb1

/-- `isCircuitBreakerOpen` (script.js lines 280-292).  Returns the
boolean result together with the possibly mutated breaker state (the
function calls `resetCircuitBreaker` when the open duration has
elapsed).  JS arithmetic coerces a `null` `lastFailureTime` to 0,
hence `Option.getD 0`. -/
def isCircuitBreakerOpen (now : Nat) (cb : CircuitBreakerState) :
    Bool × CircuitBreakerState :=
  if cb.isOpen then
    if now - cb.lastFailureTime.getD 0 ≥ cb.timeout then
      (false, resetCircuitBreaker cb)
    else
      (true, cb)
  else
    (false, cb)

/-- Does `pat` occur as a contiguous run inside `s`?  This is what each
of the regexes in `isRetryableError` tests (they are all plain literal
patterns, some with the `i` flag handled separately). -/
def containsSeq (pat : List Char) : List Char → Bool
  | [] => pat.isEmpty
  | c :: rest => pat.isPrefixOf (c :: rest) || containsSeq pat rest

/-- One regex test from `isRetryableError`: `ci` is the `i` flag. -/
def testPattern (ci : Bool) (pat msg : String) : Bool :=
  if ci then
    containsSeq (pat.data.map Char.toLower) (msg.data.map Char.toLower)
  else
    containsSeq pat.data msg.data

/-- The `retryablePatterns` list (script.js lines 246-255), flag
paired with the literal pattern text. -/
def retryablePatterns : List (Bool × String) :=
  [(true, "timeout"), (false, "500"), (false, "502"), (false, "503"),
   (false, "504"), (false, "429"), (true, "network"), (true, "connection")]

/-- The `nonRetryablePatterns` list (script.js lines 257-263). -/
def nonRetryablePatterns : List (Bool × String) :=
  [(false, "400"), (false, "401"), (false, "403"), (false, "404"),
   (false, "422")]

/-- Does the message match some non-retryable (client/auth) pattern? -/
def matchesNonRetryable (msg : String) : Bool :=
  nonRetryablePatterns.any fun p => testPattern p.1 p.2 msg

/-- Does the message match some retryable (transient) pattern? -/
def matchesRetryable (msg : String) : Bool :=
  retryablePatterns.any fun p => testPattern p.1 p.2 msg

/-- `isRetryableError` (script.js lines 245-276): non-retryable
patterns are checked first, then retryable ones, and anything else is
not retryable. -/
def isRetryableError (msg : String) : Bool :=
  if matchesNonRetryable msg then
    false
  else if matchesRetryable msg then
    true
  else
    false

/-- `calculateBackoffDelay` (script.js lines 227-241), with the
instance fields `this.backoffType` and `this.baseDelay` passed in. -/
def calculateBackoffDelay (backoffType : String) (baseDelay attemptNumber : Nat) :
    Nat :=
  if backoffType = "exponential" then baseDelay * 2 ^ attemptNumber
  else if backoffType = "linear" then baseDelay * (attemptNumber + 1)
  else if backoffType = "fixed" then baseDelay
  else baseDelay

namespace ErrorUtils

/-- `ErrorUtils.calculateDelay` (script.js lines 535-546). -/
def calculateDelay (attempt baseDelay : Nat) (backoffType : String) : Nat :=
  if backoffType = "exponential" then baseDelay * 2 ^ attempt
  else if backoffType = "linear" then baseDelay * (attempt + 1)
  else if backoffType = "fixed" then baseDelay
  else baseDelay

end ErrorUtils

/-- The per-call configuration read by `makeRequestWithRetry`: the
instance settings (`this.maxRetries`, `this.baseDelay`,
`this.backoffType`) together with the caller-supplied operation.
`op n` is the resolved outcome of `simulateAPIRequest` on attempt `n`,
and `dur n` is the time that invocation takes before settling. -/
structure Config where
  op : Nat → APIResult
  dur : Nat → Nat
  maxRetries : Nat
  baseDelay : Nat
  backoffType : String

/-- The mutable state of the handler visible to the claims: the
statistics, the circuit-breaker state, and the virtual clock.  The
last three fields are observation-only traces that record, without
influencing control flow, how many times the operation was actually
invoked, the backoff waits performed, and the clock at the start of
each loop iteration. -/
structure HandlerState where
  stats : Stats
  cb : CircuitBreakerState
  now : Nat
  opCalls : Nat
  waits : List Nat
  attemptTimes : List Nat
deriving DecidableEq

/-- The message of the error thrown when the breaker blocks a request
(script.js line 116). -/
def circuitOpenMessage : String := "Circuit breaker is open - blocking request"

/-- The prefix of `s` before the first occurrence of the two-character
separator of `String.prototype.split(' (')`. -/
def keyHead : List Char → List Char
  | [] => []
  | c :: rest =>
      if [' ', '('].isPrefixOf (c :: rest) then [] else c :: keyHead rest

/-- `error.message.split(' (')[0] || error.message` (script.js line
139): the part of the message before the first " (", falling back to
the whole message when that part is the empty (falsy) string. -/
def errorKeyOf (msg : String) : String :=
  let head := keyHead msg.data
  if head.isEmpty then msg else String.mk head

/-- `this.stats.errorTypes[k] = (this.stats.errorTypes[k] || 0) + 1`
(script.js line 140) on the association-list embedding of the map. -/
def bumpErrorType (key : String) : List (String × Nat) → List (String × Nat)
  | [] => [(key, 1)]
  | (k, n) :: rest =>
      if k = key then (k, n + 1) :: rest else (k, n) :: bumpErrorType key rest

/-- What one iteration of the retry loop decides: return successfully,
throw the terminal error, or wait and run another iteration. -/
inductive StepOut where
  | success : StepOut
  | terminal : String → StepOut
  | retry : StepOut
deriving DecidableEq

/-- The `catch` block of `makeRequestWithRetry` (script.js lines
134-166), entered with the caught error message `msg` while the local
`attempt` still holds its pre-increment value.  It counts the error
type, feeds the breaker, and either schedules a retry (incrementing
`totalRetries` and waiting out the backoff delay) or records the
terminal failure. -/
def handleCatch (cfg : Config) (msg : String) (attempt : Nat)
    (st : HandlerState) : StepOut × HandlerState :=
  let attempt1 := attempt + 1
  let stats1 := { st.stats with
    errorTypes := bumpErrorType (errorKeyOf msg) st.stats.errorTypes }
  let st1 := { st with stats := stats1,
                       cb := incrementCircuitBreakerFailures st.now st.cb }
  if attempt1 ≤ cfg.maxRetries ∧ isRetryableError msg = true then
    let delayMs := calculateBackoffDelay cfg.backoffType cfg.baseDelay (attempt1 - 1)
    (StepOut.retry,
      { st1 with
        stats := { st1.stats with totalRetries := st1.stats.totalRetries + 1 },
        now := st1.now + delayMs,
        waits := st1.waits ++ [delayMs] })
  else
    (StepOut.terminal msg,
      { st1 with
        stats := { st1.stats with failedRequests := st1.stats.failedRequests + 1 } })

/-- One iteration of the `while` loop of `makeRequestWithRetry`
(script.js lines 108-167): check the breaker (whose check may itself
reset an expired open breaker); if it is open the thrown block error
lands in the catch; otherwise invoke the operation (advancing the
clock by its duration) and either do the success bookkeeping or land
its rejection in the catch. -/
def stepAttempt (cfg : Config) (startTime attempt : Nat)
    (st : HandlerState) : StepOut × HandlerState :=
  let st0 := { st with attemptTimes := st.attemptTimes ++ [st.now] }
  let checked := isCircuitBreakerOpen st0.now st0.cb
  let st1 := { st0 with cb := checked.2 }
  if checked.1 then
    handleCatch cfg circuitOpenMessage attempt st1
  else
    let st2 := { st1 with now := st1.now + cfg.dur attempt,
                          opCalls := st1.opCalls + 1 }
    match cfg.op attempt with
    | APIResult.ok =>
        (StepOut.success,
          { st2 with
            stats := { st2.stats with
              successfulRequests := st2.stats.successfulRequests + 1,
              responseTimes := st2.stats.responseTimes ++ [st2.now - startTime] },
            cb := resetCircuitBreaker st2.cb })
    | APIResult.err msg => handleCatch cfg msg attempt st2

/-- The `while (attempt <= this.maxRetries)` loop of
`makeRequestWithRetry`, starting at a given `attempt`.  The loop body
never exits by falsifying the guard: every iteration returns, throws,
or continues with the guard re-established (a retry is scheduled only
when `attempt + 1 ≤ maxRetries`, which is `stepAttempt_retry_le`).
`fuel` bounds the remaining loop iterations so that the recursion is
structural and the function evaluates inside the kernel; whenever
`cfg.maxRetries + 1 ≤ attempt + fuel` — which `makeRequestWithRetry`
establishes and every retry preserves — the fuel cannot run out
before the loop returns or throws (`runAttempts_fuel_irrelevant`), so
the fuel-exhausted branch is unreachable and its value irrelevant. -/
def runAttempts (cfg : Config) (startTime : Nat) :
    Nat → Nat → HandlerState → ExecResult × HandlerState
  | fuel, attempt, st =>
    match stepAttempt cfg startTime attempt st with
    | (StepOut.success, st1) => (ExecResult.success, st1)
    | (StepOut.terminal msg, st1) => (ExecResult.failure msg, st1)
    | (StepOut.retry, st1) =>
        match fuel with
        | fuel1 + 1 => runAttempts cfg startTime fuel1 (attempt + 1) st1
        | 0 => (ExecResult.failure circuitOpenMessage, st1)

/-- `makeRequestWithRetry` (script.js lines 93-168): count the
request, remember the start time, and run the retry loop from
attempt 0 (the loop runs at most `maxRetries + 1` iterations). -/
def makeRequestWithRetry (cfg : Config) (st : HandlerState) :
    ExecResult × HandlerState :=
  let st1 := { st with stats :=
    { st.stats with totalRequests := st.stats.totalRequests + 1 } }
  runAttempts cfg st1.now (cfg.maxRetries + 1) 0 st1

/-- A handler state as built by the `ErrorHandler` constructor, with
the virtual clock at 0. -/
def freshHandlerState : HandlerState :=
  { stats := initialStats, cb := initialCircuitBreakerState, now := 0,
    opCalls := 0, waits := [], attemptTimes := [] }

/-- The default settings of `initializeSettings` (script.js lines
49-53) with an operation that always rejects like the `server-error`
scenario of `simulateAPIRequest`, taking no time. -/
def serverErrorConfig : Config :=
  { op := fun _ => APIResult.err "Internal Server Error (500)",
    dur := fun _ => 0, maxRetries := 3, baseDelay := 1000,
    backoffType := "exponential" }

/-- The default settings with an operation that always rejects like
the `unauthorized` scenario of `simulateAPIRequest`. -/
def unauthorizedConfig : Config :=
  { op := fun _ => APIResult.err "Unauthorized (401) - Invalid credentials",
    dur := fun _ => 0, maxRetries := 3, baseDelay := 1000,
    backoffType := "exponential" }

/-- The default settings with an operation that always resolves,
taking 250 ms. -/
def alwaysOkConfig : Config :=
  { op := fun _ => APIResult.ok, dur := fun _ => 250, maxRetries := 3,
    baseDelay := 1000, backoffType := "exponential" }

/-- A breaker that has just tripped: 3 recorded consecutive failures,
the last at time 0, with the default threshold and open duration. -/
def trippedBreaker : CircuitBreakerState :=
  { isOpen := true, failureCount := 3, lastFailureTime := some 0,
    threshold := 3, timeout := 30000 }

/-- A handler state observed 1000 ms after `trippedBreaker` tripped:
the breaker is open and its open duration has not elapsed. -/
def openBreakerState : HandlerState :=
  { stats := initialStats, cb := trippedBreaker, now := 1000,
    opCalls := 0, waits := [], attemptTimes := [] }

theorem handleCatch_retry_le (cfg : Config) (msg : String) (attempt : Nat)
    (st st1 : HandlerState)
    (h : handleCatch cfg msg attempt st = (StepOut.retry, st1)) :
    attempt + 1 ≤ cfg.maxRetries := by
  simp only [handleCatch] at h
  split at h
  · next hc => exact hc.1
  · simp at h

theorem stepAttempt_retry_le (cfg : Config) (startTime attempt : Nat)
    (st st1 : HandlerState)
    (h : stepAttempt cfg startTime attempt st = (StepOut.retry, st1)) :
    attempt + 1 ≤ cfg.maxRetries := by
  simp only [stepAttempt] at h
  split at h
  · exact handleCatch_retry_le _ _ _ _ _ h
  · split at h
    · simp at h
    · exact handleCatch_retry_le _ _ _ _ _ h

/-- With enough fuel for the remaining loop iterations, the fuel value
does not matter: the loop's result is determined by the program alone.
In particular the fuel-exhausted branch of `runAttempts` is never
taken from `makeRequestWithRetry`. -/
theorem runAttempts_fuel_irrelevant (cfg : Config) (startTime : Nat) :
    ∀ (fuel fuel2 attempt : Nat) (st : HandlerState),
      cfg.maxRetries + 1 ≤ attempt + fuel →
      cfg.maxRetries + 1 ≤ attempt + fuel2 →
      runAttempts cfg startTime fuel attempt st =
        runAttempts cfg startTime fuel2 attempt st := by
  intro fuel
  induction fuel with
  | zero =>
      intro fuel2 attempt st h1 _
      rw [runAttempts, runAttempts]
      rcases hs : stepAttempt cfg startTime attempt st with ⟨o, st1⟩
      cases o with
      | success => rfl
      | terminal msg => rfl
      | retry =>
          have := stepAttempt_retry_le cfg startTime attempt st st1 hs
          omega
  | succ n ih =>
      intro fuel2 attempt st h1 h2
      rw [runAttempts, runAttempts]
      rcases hs : stepAttempt cfg startTime attempt st with ⟨o, st1⟩
      cases o with
      | success => rfl
      | terminal msg => rfl
      | retry =>
          have hle := stepAttempt_retry_le cfg startTime attempt st st1 hs
          cases fuel2 with
          | zero => exact absurd h2 (by omega)
          | succ m => exact ih m (attempt + 1) st1 (by omega) (by omega)

/-- C5: the error classifier is a total, deterministic function (it is
a Lean function into `Bool`, so every message maps to exactly one of
retryable/non-retryable): its value is retryable exactly when the
message misses every client/auth pattern of `{400, 401, 403, 404,
422}` and matches some transient pattern of `{timeout, 429, 500, 502,
503, 504, network, connection}`.  In particular a message matching
both sets is non-retryable (the non-retryable check comes first), and
a message matching neither set is non-retryable. -/
theorem isRetryableError_total_nonretryable_first (msg : String) :
    isRetryableError msg = (!matchesNonRetryable msg && matchesRetryable msg) := by
  unfold isRetryableError
  cases h1 : matchesNonRetryable msg <;> cases h2 : matchesRetryable msg <;>
    simp [h1, h2]

/-- C6: for every `attemptIndex ≥ 0` and `baseDelay ≥ 0` (all of `Nat`
here), the backoff computation returns `baseDelay * 2 ^ attemptIndex`
for the exponential kind, `baseDelay * (attemptIndex + 1)` for linear,
`baseDelay` for fixed, and `baseDelay` for any unknown kind; it is a
pure Lean function, hence deterministic.  `ErrorUtils.calculateDelay`
agrees with it on all inputs. -/
theorem calculateBackoffDelay_spec (baseDelay attemptIndex : Nat) (kind : String)
    (h1 : kind ≠ "exponential") (h2 : kind ≠ "linear") :
    calculateBackoffDelay "exponential" baseDelay attemptIndex =
        baseDelay * 2 ^ attemptIndex ∧
    calculateBackoffDelay "linear" baseDelay attemptIndex =
        baseDelay * (attemptIndex + 1) ∧
    calculateBackoffDelay "fixed" baseDelay attemptIndex = baseDelay ∧
    calculateBackoffDelay kind baseDelay attemptIndex = baseDelay ∧
    (∀ (k : String) (b a : Nat),
      ErrorUtils.calculateDelay a b k = calculateBackoffDelay k b a) := by
  refine ⟨by simp [calculateBackoffDelay], by simp [calculateBackoffDelay],
    by simp [calculateBackoffDelay], by simp [calculateBackoffDelay, h1, h2],
    fun k b a => ?_⟩
  simp only [ErrorUtils.calculateDelay, calculateBackoffDelay]

/-- Witness for `calculateBackoffDelay_spec` at `baseDelay = 1000`,
`attemptIndex = 2`, unknown kind `"jitter"`. -/
theorem calculateBackoffDelay_spec_witness :
    calculateBackoffDelay "exponential" 1000 2 = 4000 ∧
    calculateBackoffDelay "jitter" 1000 2 = 1000 := by
  have h := calculateBackoffDelay_spec 1000 2 "jitter" (by decide) (by decide)
  exact ⟨by rw [h.1]; norm_num, h.2.2.2.1⟩

/-- C4: after 3 consecutive failures on a fresh (Closed, threshold 3)
breaker the breaker is open with `lastFailureTime` at the third
failure; every check strictly before `lastFailureTime + 30000` reports
open (the call is rejected) and leaves the state unchanged; the first
check at or after that instant reports closed, resetting the breaker;
and after a success (which resets the breaker) every later check
reports closed with `failureCount = 0`. -/
theorem breaker_open_until_timeout_then_recover (t1 t2 t3 : Nat)
    (cb3 : CircuitBreakerState)
    (hcb : cb3 = incrementCircuitBreakerFailures t3
      (incrementCircuitBreakerFailures t2
        (incrementCircuitBreakerFailures t1 initialCircuitBreakerState))) :
    cb3.isOpen = true ∧ cb3.failureCount = 3 ∧ cb3.lastFailureTime = some t3 ∧
    (∀ now, now < t3 + 30000 → isCircuitBreakerOpen now cb3 = (true, cb3)) ∧
    (∀ now, t3 + 30000 ≤ now →
      isCircuitBreakerOpen now cb3 = (false, resetCircuitBreaker cb3)) ∧
    (resetCircuitBreaker cb3).failureCount = 0 ∧
    (∀ now2, isCircuitBreakerOpen now2 (resetCircuitBreaker cb3) =
      (false, resetCircuitBreaker cb3)) := by
  have hval : cb3 =
      { isOpen := true, failureCount := 3, lastFailureTime := some t3, threshold := 3, timeout := 30000 } := by
    rw [hcb]; rfl
  subst hval
  refine ⟨rfl, rfl, rfl, ?_, ?_, rfl, ?_⟩
  · intro now h
    have hlt : ¬ (30000 ≤ now - t3) := by omega
    simp [isCircuitBreakerOpen, hlt]
  · intro now h
    have hge : 30000 ≤ now - t3 := by omega
    simp [isCircuitBreakerOpen, resetCircuitBreaker, hge]
  · intro now2
    simp [isCircuitBreakerOpen, resetCircuitBreaker]

/-- Witness for `breaker_open_until_timeout_then_recover` with the
three failures at times 0, 1, 2: a check at 100 is rejected, the first
check at 30002 (= 2 + 30000) is admitted, and after the reset a check
far later is still admitted. -/
theorem breaker_open_until_timeout_then_recover_witness :
    (isCircuitBreakerOpen 100 (incrementCircuitBreakerFailures 2
      (incrementCircuitBreakerFailures 1
        (incrementCircuitBreakerFailures 0 initialCircuitBreakerState)))).1 =
      true ∧
    (isCircuitBreakerOpen 30002 (incrementCircuitBreakerFailures 2
      (incrementCircuitBreakerFailures 1
        (incrementCircuitBreakerFailures 0 initialCircuitBreakerState)))).1 =
      false ∧
    (isCircuitBreakerOpen 99999 (resetCircuitBreaker
      (incrementCircuitBreakerFailures 2 (incrementCircuitBreakerFailures 1
        (incrementCircuitBreakerFailures 0 initialCircuitBreakerState))))).1 =
      false := by
  have h := breaker_open_until_timeout_then_recover 0 1 2 _ rfl
  refine ⟨?_, ?_, ?_⟩
  · rw [h.2.2.2.1 100 (by norm_num)]
  · rw [h.2.2.2.2.1 30002 (by norm_num)]
  · rw [h.2.2.2.2.2.2 99999]

/-- C3 fails on the code: there is no single-trial half-open state.
With the breaker open since time 0 (3 failures, threshold 3) and the
open duration elapsed at time 30000, the check admits the call after
fully resetting the breaker; when that trial then fails, the breaker
is left Closed with `failureCount = 1` — not re-opened with the count
at or above the threshold as the claim states — and a further check at
time 30001 admits the next call as well, so more than one post-timeout
attempt is admitted without any intervening success. -/
theorem half_open_trial_failure_stays_closed :
    (isCircuitBreakerOpen 30000 trippedBreaker).1 = false ∧
    (incrementCircuitBreakerFailures 30000
      (isCircuitBreakerOpen 30000 trippedBreaker).2).isOpen = false ∧
    (incrementCircuitBreakerFailures 30000
      (isCircuitBreakerOpen 30000 trippedBreaker).2).failureCount = 1 ∧
    (isCircuitBreakerOpen 30001 (incrementCircuitBreakerFailures 30000
      (isCircuitBreakerOpen 30000 trippedBreaker).2)).1 = false := by
  decide

/-- C3 amended: once the open duration has elapsed, the breaker check
fully resets the breaker (Closed, `failureCount = 0`) and admits the
call; if that trial attempt succeeds the breaker stays Closed with
`failureCount = 0` (`resetCircuitBreaker`), but if it fails the
breaker records a single failure and — with the default threshold 3 —
remains Closed, admitting subsequent attempts; it does not re-open
until the failure count again reaches the threshold. -/
theorem half_open_reset_behavior (cb : CircuitBreakerState)
    (now now2 now3 : Nat) (h1 : cb.isOpen = true)
    (h2 : cb.timeout ≤ now - cb.lastFailureTime.getD 0)
    (h3 : cb.threshold = 3) :
    isCircuitBreakerOpen now cb = (false, resetCircuitBreaker cb) ∧
    (resetCircuitBreaker cb).failureCount = 0 ∧
    (resetCircuitBreaker cb).isOpen = false ∧
    (incrementCircuitBreakerFailures now2 (resetCircuitBreaker cb)).isOpen =
      false ∧
    (incrementCircuitBreakerFailures now2
      (resetCircuitBreaker cb)).failureCount = 1 ∧
    (isCircuitBreakerOpen now3 (incrementCircuitBreakerFailures now2
      (resetCircuitBreaker cb))).1 = false := by
  refine ⟨?_, rfl, rfl, ?_, ?_, ?_⟩
  · simp [isCircuitBreakerOpen, h1, h2]
  · simp [incrementCircuitBreakerFailures, resetCircuitBreaker, h3]
  · simp [incrementCircuitBreakerFailures, resetCircuitBreaker, h3]
  · simp [isCircuitBreakerOpen, incrementCircuitBreakerFailures,
      resetCircuitBreaker, h3]

/-- Witness for `half_open_reset_behavior` on `trippedBreaker` at the
instant the open duration elapses. -/
theorem half_open_reset_behavior_witness :
    isCircuitBreakerOpen 30000 trippedBreaker =
      (false, resetCircuitBreaker trippedBreaker) ∧
    (incrementCircuitBreakerFailures 30000
      (resetCircuitBreaker trippedBreaker)).failureCount = 1 := by
  have h := half_open_reset_behavior trippedBreaker 30000 30000 30001
    (by decide) (by decide) (by decide)
  exact ⟨h.1, h.2.2.2.2.1⟩

theorem handleCatch_stats (cfg : Config) (msg : String) (attempt : Nat)
    (st : HandlerState) (o : StepOut) (st1 : HandlerState)
    (h : handleCatch cfg msg attempt st = (o, st1)) :
    st1.stats.totalRequests = st.stats.totalRequests ∧
    st1.stats.successfulRequests = st.stats.successfulRequests ∧
    st1.stats.responseTimes = st.stats.responseTimes ∧
    ((o = StepOut.retry ∧
        st1.stats.failedRequests = st.stats.failedRequests) ∨
      (o = StepOut.terminal msg ∧
        st1.stats.failedRequests = st.stats.failedRequests + 1)) := by
  simp only [handleCatch] at h
  split at h
  · cases h
    refine ⟨rfl, rfl, rfl, Or.inl ⟨rfl, rfl⟩⟩
  · cases h
    refine ⟨rfl, rfl, rfl, Or.inr ⟨rfl, rfl⟩⟩

theorem stepAttempt_stats (cfg : Config) (startTime attempt : Nat)
    (st : HandlerState) (o : StepOut) (st1 : HandlerState)
    (h : stepAttempt cfg startTime attempt st = (o, st1)) :
    st1.stats.totalRequests = st.stats.totalRequests ∧
    ((o = StepOut.success ∧
        st1.stats.successfulRequests = st.stats.successfulRequests + 1 ∧
        st1.stats.failedRequests = st.stats.failedRequests ∧
        st1.stats.responseTimes =
          st.stats.responseTimes ++ [st1.now - startTime]) ∨
      (o = StepOut.retry ∧
        st1.stats.successfulRequests = st.stats.successfulRequests ∧
        st1.stats.failedRequests = st.stats.failedRequests ∧
        st1.stats.responseTimes = st.stats.responseTimes) ∨
      (∃ m, o = StepOut.terminal m ∧
        st1.stats.successfulRequests = st.stats.successfulRequests ∧
        st1.stats.failedRequests = st.stats.failedRequests + 1 ∧
        st1.stats.responseTimes = st.stats.responseTimes)) := by
  simp only [stepAttempt] at h
  split at h
  · have hc := handleCatch_stats _ _ _ _ _ _ h
    rcases hc.2.2.2 with ⟨ho, hf⟩ | ⟨ho, hf⟩
    · exact ⟨hc.1, Or.inr (Or.inl ⟨ho, hc.2.1, hf, hc.2.2.1⟩)⟩
    · exact ⟨hc.1, Or.inr (Or.inr ⟨_, ho, hc.2.1, hf, hc.2.2.1⟩)⟩
  · split at h
    · cases h
      exact ⟨rfl, Or.inl ⟨rfl, rfl, rfl, rfl⟩⟩
    · have hc := handleCatch_stats _ _ _ _ _ _ h
      rcases hc.2.2.2 with ⟨ho, hf⟩ | ⟨ho, hf⟩
      · exact ⟨hc.1, Or.inr (Or.inl ⟨ho, hc.2.1, hf, hc.2.2.1⟩)⟩
      · exact ⟨hc.1, Or.inr (Or.inr ⟨_, ho, hc.2.1, hf, hc.2.2.1⟩)⟩

theorem runAttempts_stats (cfg : Config) (startTime : Nat) :
    ∀ (fuel attempt : Nat) (st : HandlerState) (r : ExecResult)
      (st1 : HandlerState),
      cfg.maxRetries + 1 ≤ attempt + fuel →
      runAttempts cfg startTime fuel attempt st = (r, st1) →
      st1.stats.totalRequests = st.stats.totalRequests ∧
      ((r = ExecResult.success ∧
          st1.stats.successfulRequests = st.stats.successfulRequests + 1 ∧
          st1.stats.failedRequests = st.stats.failedRequests ∧
          st1.stats.responseTimes =
            st.stats.responseTimes ++ [st1.now - startTime]) ∨
        (∃ m, r = ExecResult.failure m ∧
          st1.stats.successfulRequests = st.stats.successfulRequests ∧
          st1.stats.failedRequests = st.stats.failedRequests + 1 ∧
          st1.stats.responseTimes = st.stats.responseTimes)) := by
  intro fuel
  induction fuel with
  | zero =>
      intro attempt st r st1 hb h
      rw [runAttempts] at h
      rcases hs : stepAttempt cfg startTime attempt st with ⟨o, stm⟩
      rw [hs] at h
      have hstep := stepAttempt_stats cfg startTime attempt st o stm hs
      cases o with
      | success =>
          cases h
          rcases hstep.2 with ⟨_, h2⟩ | ⟨h1, _⟩ | ⟨m, h1, _⟩
          · exact ⟨hstep.1, Or.inl ⟨rfl, h2⟩⟩
          · exact absurd h1 (by simp)
          · exact absurd h1 (by simp)
      | terminal msg =>
          cases h
          rcases hstep.2 with ⟨h1, _⟩ | ⟨h1, _⟩ | ⟨m, h1, h2⟩
          · exact absurd h1 (by simp)
          · exact absurd h1 (by simp)
          · cases h1
            exact ⟨hstep.1, Or.inr ⟨_, rfl, h2⟩⟩
      | retry =>
          have := stepAttempt_retry_le cfg startTime attempt st stm hs
          omega
  | succ n ih =>
      intro attempt st r st1 hb h
      rw [runAttempts] at h
      rcases hs : stepAttempt cfg startTime attempt st with ⟨o, stm⟩
      rw [hs] at h
      have hstep := stepAttempt_stats cfg startTime attempt st o stm hs
      cases o with
      | success =>
          cases h
          rcases hstep.2 with ⟨_, h2⟩ | ⟨h1, _⟩ | ⟨m, h1, _⟩
          · exact ⟨hstep.1, Or.inl ⟨rfl, h2⟩⟩
          · exact absurd h1 (by simp)
          · exact absurd h1 (by simp)
      | terminal msg =>
          cases h
          rcases hstep.2 with ⟨h1, _⟩ | ⟨h1, _⟩ | ⟨m, h1, h2⟩
          · exact absurd h1 (by simp)
          · exact absurd h1 (by simp)
          · cases h1
            exact ⟨hstep.1, Or.inr ⟨_, rfl, h2⟩⟩
      | retry =>
          have hle := stepAttempt_retry_le cfg startTime attempt st stm hs
          have hmid := ih (attempt + 1) stm r st1 (by omega) h
          rcases hstep.2 with ⟨h1, _⟩ | ⟨_, hsu, hfa, hrt⟩ | ⟨m, h1, _⟩
          · exact absurd h1 (by simp)
          · refine ⟨by rw [hmid.1, hstep.1], ?_⟩
            rcases hmid.2 with ⟨hr, hsu2, hfa2, hrt2⟩ | ⟨m, hr, hsu2, hfa2, hrt2⟩
            · exact Or.inl ⟨hr, by rw [hsu2, hsu], by rw [hfa2, hfa],
                by rw [hrt2, hrt]⟩
            · exact Or.inr ⟨m, hr, by rw [hsu2, hsu], by rw [hfa2, hfa],
                by rw [hrt2, hrt]⟩
          · exact absurd h1 (by simp)

/-- C8: for every operation and policy (any `Config`) and any starting
state, `makeRequestWithRetry` is a total function whose outcome is
delivered to the caller as a typed result: either a success or a
terminal failure carrying the last error message.  In the embedding
the JS `throw` of the terminal error is exactly the
`ExecResult.failure` value (an `async` function's throw is a rejected
promise handed to the caller, not a host-process crash), and totality
covers the retry-budget-exhausted path. -/
theorem executor_always_returns_typed_result (cfg : Config) (st : HandlerState) :
    (∃ st1, makeRequestWithRetry cfg st = (ExecResult.success, st1)) ∨
    (∃ msg st1, makeRequestWithRetry cfg st = (ExecResult.failure msg, st1)) := by
  cases hr : (makeRequestWithRetry cfg st).1 with
  | success =>
      refine Or.inl ⟨(makeRequestWithRetry cfg st).2, ?_⟩
      rw [← hr]
  | failure msg =>
      refine Or.inr ⟨msg, (makeRequestWithRetry cfg st).2, ?_⟩
      rw [← hr]

/-- C9: every completed top-level call increments `totalRequests` by
exactly 1 and exactly one of `successfulRequests` or `failedRequests`
by exactly 1 (the other is unchanged); consequently the invariant
`totalRequests = successfulRequests + failedRequests` is preserved by
every completed call. -/
theorem stats_total_eq_success_plus_failed (cfg : Config) (st : HandlerState)
    (r : ExecResult) (st1 : HandlerState)
    (h : makeRequestWithRetry cfg st = (r, st1)) :
    st1.stats.totalRequests = st.stats.totalRequests + 1 ∧
    ((st1.stats.successfulRequests = st.stats.successfulRequests + 1 ∧
        st1.stats.failedRequests = st.stats.failedRequests) ∨
      (st1.stats.failedRequests = st.stats.failedRequests + 1 ∧
        st1.stats.successfulRequests = st.stats.successfulRequests)) ∧
    (st.stats.totalRequests =
        st.stats.successfulRequests + st.stats.failedRequests →
      st1.stats.totalRequests =
        st1.stats.successfulRequests + st1.stats.failedRequests) := by
  have hrun := runAttempts_stats cfg st.now (cfg.maxRetries + 1) 0
    ({ st with stats := { st.stats with totalRequests := st.stats.totalRequests + 1 } })
    r st1 (by omega) h
  dsimp only at hrun
  rcases hrun.2 with ⟨_, hsu, hfa, _⟩ | ⟨m, _, hsu, hfa, _⟩
  · refine ⟨by rw [hrun.1], Or.inl ⟨by rw [hsu], by rw [hfa]⟩, ?_⟩
    intro hinv
    rw [hrun.1, hsu, hfa]
    omega
  · refine ⟨by rw [hrun.1], Or.inr ⟨by rw [hfa], by rw [hsu]⟩, ?_⟩
    intro hinv
    rw [hrun.1, hsu, hfa]
    omega

theorem stats_total_witness :
    (makeRequestWithRetry serverErrorConfig freshHandlerState).2.stats.totalRequests =
      (makeRequestWithRetry serverErrorConfig freshHandlerState).2.stats.successfulRequests +
      (makeRequestWithRetry serverErrorConfig freshHandlerState).2.stats.failedRequests := by
  have h := stats_total_eq_success_plus_failed serverErrorConfig
    freshHandlerState
    (makeRequestWithRetry serverErrorConfig freshHandlerState).1
    (makeRequestWithRetry serverErrorConfig freshHandlerState).2 rfl
  exact h.2.2 (by decide)

/-- C10: `responseTimes` gains an entry exactly when the top-level
call ends in success, and that entry is the elapsed time from the
start of the whole call (`st.now`) to the successful attempt's
completion (`st1.now`) — which spans every failed attempt and every
backoff wait in between; a call ending in terminal failure leaves
`responseTimes` unchanged, so the derived average response time is the
mean of end-to-end durations of successful calls only. -/
theorem responseTimes_only_on_success (cfg : Config) (st : HandlerState)
    (r : ExecResult) (st1 : HandlerState)
    (h : makeRequestWithRetry cfg st = (r, st1)) :
    (r = ExecResult.success →
      st1.stats.responseTimes = st.stats.responseTimes ++ [st1.now - st.now]) ∧
    (∀ msg, r = ExecResult.failure msg →
      st1.stats.responseTimes = st.stats.responseTimes) := by
  have hrun := runAttempts_stats cfg st.now (cfg.maxRetries + 1) 0
    ({ st with stats := { st.stats with totalRequests := st.stats.totalRequests + 1 } })
    r st1 (by omega) h
  dsimp only at hrun
  rcases hrun.2 with ⟨hr, _, _, hrt⟩ | ⟨m, hr, _, _, hrt⟩
  · subst hr
    refine ⟨fun _ => hrt, fun msg hm => ?_⟩
    cases hm
  · subst hr
    refine ⟨fun hm => ?_, fun msg hm => hrt⟩
    cases hm

theorem responseTimes_witness :
    (makeRequestWithRetry alwaysOkConfig freshHandlerState).2.stats.responseTimes = [250] ∧
    (makeRequestWithRetry serverErrorConfig freshHandlerState).2.stats.responseTimes = [] := by
  have h1 := (responseTimes_only_on_success alwaysOkConfig freshHandlerState
    (makeRequestWithRetry alwaysOkConfig freshHandlerState).1
    (makeRequestWithRetry alwaysOkConfig freshHandlerState).2 rfl).1 (by decide)
  have h2 := (responseTimes_only_on_success serverErrorConfig freshHandlerState
    (makeRequestWithRetry serverErrorConfig freshHandlerState).1
    (makeRequestWithRetry serverErrorConfig freshHandlerState).2 rfl).2
    circuitOpenMessage (by decide)
  constructor
  · rw [h1]; decide
  · rw [h2]; decide

theorem incrementCircuitBreakerFailures_failureCount (now : Nat)
    (cb : CircuitBreakerState) :
    (incrementCircuitBreakerFailures now cb).failureCount =
      cb.failureCount + 1 := by
  simp only [incrementCircuitBreakerFailures]
  split <;> rfl

theorem incrementCircuitBreakerFailures_lastFailureTime (now : Nat)
    (cb : CircuitBreakerState) :
    (incrementCircuitBreakerFailures now cb).lastFailureTime = some now := by
  simp only [incrementCircuitBreakerFailures]
  split <;> rfl

theorem handleCatch_terminal_eq (cfg : Config) (msg : String) (attempt : Nat)
    (st : HandlerState)
    (hcond : ¬ (attempt + 1 ≤ cfg.maxRetries ∧ isRetryableError msg = true)) :
    handleCatch cfg msg attempt st =
      (StepOut.terminal msg,
        { st with
          stats := { st.stats with
            errorTypes := bumpErrorType (errorKeyOf msg) st.stats.errorTypes,
            failedRequests := st.stats.failedRequests + 1 },
          cb := incrementCircuitBreakerFailures st.now st.cb }) := by
  simp only [handleCatch, if_neg hcond]

theorem handleCatch_retry_eq (cfg : Config) (msg : String) (attempt : Nat)
    (st : HandlerState)
    (hcond : attempt + 1 ≤ cfg.maxRetries ∧ isRetryableError msg = true) :
    handleCatch cfg msg attempt st =
      (StepOut.retry,
        { st with
          stats := { st.stats with
            errorTypes := bumpErrorType (errorKeyOf msg) st.stats.errorTypes,
            totalRetries := st.stats.totalRetries + 1 },
          cb := incrementCircuitBreakerFailures st.now st.cb,
          now := st.now +
            calculateBackoffDelay cfg.backoffType cfg.baseDelay attempt,
          waits := st.waits ++
            [calculateBackoffDelay cfg.backoffType cfg.baseDelay attempt] }) := by
  simp only [handleCatch, if_pos hcond, Nat.add_sub_cancel]

theorem stepAttempt_blocked_eq (cfg : Config) (startTime attempt : Nat)
    (st : HandlerState) (h1 : st.cb.isOpen = true)
    (hng : ¬ (st.cb.timeout ≤ st.now - st.cb.lastFailureTime.getD 0)) :
    stepAttempt cfg startTime attempt st =
      handleCatch cfg circuitOpenMessage attempt
        { st with attemptTimes := st.attemptTimes ++ [st.now] } := by
  simp only [stepAttempt, isCircuitBreakerOpen, h1, if_true, ge_iff_le,
    if_neg hng]

theorem stepAttempt_closed_err_eq (cfg : Config) (startTime attempt : Nat)
    (st : HandlerState) (msg : String) (h1 : st.cb.isOpen = false)
    (hop : cfg.op attempt = APIResult.err msg) :
    stepAttempt cfg startTime attempt st =
      handleCatch cfg msg attempt
        { st with now := st.now + cfg.dur attempt, opCalls := st.opCalls + 1,
                  attemptTimes := st.attemptTimes ++ [st.now] } := by
  simp only [stepAttempt, isCircuitBreakerOpen, h1, if_false, hop,
    Bool.false_eq_true]

theorem stepAttempt_closed_ok_eq (cfg : Config) (startTime attempt : Nat)
    (st : HandlerState) (h1 : st.cb.isOpen = false)
    (hop : cfg.op attempt = APIResult.ok) :
    stepAttempt cfg startTime attempt st =
      (StepOut.success,
        { st with
          stats := { st.stats with
            successfulRequests := st.stats.successfulRequests + 1,
            responseTimes := st.stats.responseTimes ++
              [st.now + cfg.dur attempt - startTime] },
          cb := resetCircuitBreaker st.cb,
          now := st.now + cfg.dur attempt, opCalls := st.opCalls + 1,
          attemptTimes := st.attemptTimes ++ [st.now] }) := by
  simp only [stepAttempt, isCircuitBreakerOpen, h1, if_false, hop,
    Bool.false_eq_true]

/-- C2 fails on the code: a call that arrives while the breaker is
open is rejected without invoking the operation and is not retried,
but the thrown block error goes through the same `catch` as an
operation failure, so `incrementCircuitBreakerFailures` runs: the
breaker's failure count DOES increase (and `lastFailureTime` is
refreshed).  Concretely, with the breaker open since time 0 (count 3)
and the call at time 1000, the count becomes 4 while the operation is
never invoked. -/
theorem circuit_open_increments_failures :
    (makeRequestWithRetry serverErrorConfig openBreakerState).2.cb.failureCount = 4 ∧
    (makeRequestWithRetry serverErrorConfig openBreakerState).2.opCalls = 0 ∧
    openBreakerState.cb.failureCount = 3 := by
  decide

/-- C2 amended: while the breaker is open and its open duration has
not elapsed, the call fails immediately and terminally with the
circuit-open error, the operation is never invoked, no retry is
scheduled and no retry attempt is consumed (`totalRetries` and `waits`
unchanged, `failedRequests` incremented once), but — unlike the claim
— `consecutiveFailures` is incremented by 1 and `lastFailureTime` is
refreshed to the call time, because the block error flows through the
same catch path as an operation failure. -/
theorem circuit_open_fast_fail (cfg : Config) (st : HandlerState) (t : Nat)
    (h1 : st.cb.isOpen = true) (h2 : st.cb.lastFailureTime = some t)
    (h3 : st.now - t < st.cb.timeout) :
    (makeRequestWithRetry cfg st).1 = ExecResult.failure circuitOpenMessage ∧
    (makeRequestWithRetry cfg st).2.opCalls = st.opCalls ∧
    (makeRequestWithRetry cfg st).2.stats.totalRetries = st.stats.totalRetries ∧
    (makeRequestWithRetry cfg st).2.waits = st.waits ∧
    (makeRequestWithRetry cfg st).2.stats.failedRequests =
      st.stats.failedRequests + 1 ∧
    (makeRequestWithRetry cfg st).2.cb.failureCount = st.cb.failureCount + 1 ∧
    (makeRequestWithRetry cfg st).2.cb.lastFailureTime = some st.now := by
  have hr : isRetryableError circuitOpenMessage = false := by decide
  have hng : ¬ (st.cb.timeout ≤ st.now - st.cb.lastFailureTime.getD 0) := by
    rw [h2]
    simpa using h3
  simp only [makeRequestWithRetry]
  rw [runAttempts]
  rw [stepAttempt_blocked_eq cfg st.now 0
    { st with stats := { st.stats with totalRequests := st.stats.totalRequests + 1 } } h1 hng]
  rw [handleCatch_terminal_eq cfg circuitOpenMessage 0 _ (by simp [hr])]
  dsimp only
  refine ⟨rfl, rfl, rfl, rfl, rfl, ?_, ?_⟩
  · simp [incrementCircuitBreakerFailures_failureCount]
  · simp [incrementCircuitBreakerFailures_lastFailureTime]

/-- Witness for `circuit_open_fast_fail` on `openBreakerState` with
the `unauthorized` operation (which is never invoked). -/
theorem circuit_open_fast_fail_witness :
    (makeRequestWithRetry unauthorizedConfig openBreakerState).1 =
      ExecResult.failure circuitOpenMessage ∧
    (makeRequestWithRetry unauthorizedConfig openBreakerState).2.opCalls = 0 := by
  have h := circuit_open_fast_fail unauthorizedConfig openBreakerState 0
    (by decide) (by decide) (by decide)
  refine ⟨h.1, ?_⟩
  rw [h.2.1]
  rfl

/-- C7: when the breaker admits the call and the first attempt fails
with a non-retryable error, the call performs exactly one invocation
of the operation, schedules no retry (`totalRetries` and the wait
trace are unchanged), and fails immediately and terminally with that
error; `failedRequests` is incremented once.  This holds for every
`maxRetries` because the retry test requires the error to be
retryable. -/
theorem non_retryable_single_attempt (cfg : Config) (st : HandlerState)
    (msg : String) (h1 : st.cb.isOpen = false)
    (h2 : cfg.op 0 = APIResult.err msg)
    (h3 : isRetryableError msg = false) :
    (makeRequestWithRetry cfg st).1 = ExecResult.failure msg ∧
    (makeRequestWithRetry cfg st).2.opCalls = st.opCalls + 1 ∧
    (makeRequestWithRetry cfg st).2.stats.totalRetries = st.stats.totalRetries ∧
    (makeRequestWithRetry cfg st).2.waits = st.waits ∧
    (makeRequestWithRetry cfg st).2.stats.failedRequests =
      st.stats.failedRequests + 1 := by
  simp only [makeRequestWithRetry]
  rw [runAttempts]
  rw [stepAttempt_closed_err_eq cfg st.now 0
    { st with stats := { st.stats with totalRequests := st.stats.totalRequests + 1 } }
    msg h1 h2]
  rw [handleCatch_terminal_eq cfg msg 0 _ (by simp [h3])]
  dsimp only
  exact ⟨rfl, rfl, rfl, rfl, rfl⟩

/-- Witness for `non_retryable_single_attempt`: the `unauthorized`
scenario from a fresh handler performs one attempt and fails
terminally with no retries. -/
theorem non_retryable_single_attempt_witness :
    (makeRequestWithRetry unauthorizedConfig freshHandlerState).1 =
      ExecResult.failure "Unauthorized (401) - Invalid credentials" ∧
    (makeRequestWithRetry unauthorizedConfig freshHandlerState).2.opCalls = 1 ∧
    (makeRequestWithRetry unauthorizedConfig freshHandlerState).2.stats.totalRetries = 0 := by
  have h := non_retryable_single_attempt unauthorizedConfig freshHandlerState
    "Unauthorized (401) - Invalid credentials" (by decide) rfl (by decide)
  refine ⟨h.1, ?_, ?_⟩
  · rw [h.2.1]
    rfl
  · rw [h.2.2.1]
    rfl

/-- C1 amended: with policy `{maxRetries := 3, baseDelay := 1000,
backoffKind := exponential}`, a fresh (Closed, count 0) breaker, and
an operation that always fails with a retryable error (any messages,
any attempt durations), the call performs 4 loop attempts but only 3
invocations of the operation: the third consecutive failure trips the
breaker (threshold 3), so the fourth attempt — after exactly the
backoff waits 1000 ms, 2000 ms and 4000 ms — is blocked and the call
fails terminally with the circuit-open error (4000 ms elapsed is far
below the 30000 ms open duration).  `totalRetries` still increases by
exactly 3 and `failedRequests` by exactly 1, as the claim states. -/
theorem retryable_exhaustion_run (m : Nat → String) (d : Nat → Nat)
    (st : HandlerState) (hcb : st.cb = initialCircuitBreakerState)
    (hm : ∀ n, isRetryableError (m n) = true) :
    (makeRequestWithRetry
        { op := fun n => APIResult.err (m n), dur := d, maxRetries := 3,
          baseDelay := 1000, backoffType := "exponential" } st).1 =
      ExecResult.failure circuitOpenMessage ∧
    (makeRequestWithRetry
        { op := fun n => APIResult.err (m n), dur := d, maxRetries := 3,
          baseDelay := 1000, backoffType := "exponential" } st).2.opCalls =
      st.opCalls + 3 ∧
    (makeRequestWithRetry
        { op := fun n => APIResult.err (m n), dur := d, maxRetries := 3,
          baseDelay := 1000, backoffType := "exponential" } st).2.stats.totalRetries =
      st.stats.totalRetries + 3 ∧
    (makeRequestWithRetry
        { op := fun n => APIResult.err (m n), dur := d, maxRetries := 3,
          baseDelay := 1000, backoffType := "exponential" } st).2.stats.failedRequests =
      st.stats.failedRequests + 1 ∧
    (makeRequestWithRetry
        { op := fun n => APIResult.err (m n), dur := d, maxRetries := 3,
          baseDelay := 1000, backoffType := "exponential" } st).2.waits =
      st.waits ++ [1000, 2000, 4000] := by
  refine ⟨?_, ?_, ?_, ?_, ?_⟩ <;>
    simp [makeRequestWithRetry, runAttempts, stepAttempt, handleCatch,
      isCircuitBreakerOpen, incrementCircuitBreakerFailures,
      resetCircuitBreaker, calculateBackoffDelay, hcb,
      initialCircuitBreakerState, hm, Nat.add_sub_cancel_left,
      List.append_assoc]

/-- C1 fails on the code: in the claim's own concrete scenario
(`maxRetries = 3`, base delay 1000 ms, exponential backoff, operation
always rejecting with the retryable `Internal Server Error (500)`,
fresh handler) the operation is invoked exactly 3 times, not 4: the
breaker (threshold 3) opens at the third consecutive failure and
blocks the fourth attempt, which happens at t = 7000 after waits of
1000, 2000 and 4000 ms, and the terminal failure is the circuit-open
error.  `totalRetries = 3` and `failedRequests = 1` as claimed. -/
theorem retryable_exhaustion_three_invocations :
    (makeRequestWithRetry serverErrorConfig freshHandlerState).2.opCalls = 3 ∧
    (makeRequestWithRetry serverErrorConfig freshHandlerState).1 =
      ExecResult.failure circuitOpenMessage ∧
    (makeRequestWithRetry serverErrorConfig freshHandlerState).2.stats.totalRetries = 3 ∧
    (makeRequestWithRetry serverErrorConfig freshHandlerState).2.stats.failedRequests = 1 ∧
    (makeRequestWithRetry serverErrorConfig freshHandlerState).2.waits =
      [1000, 2000, 4000] ∧
    (makeRequestWithRetry serverErrorConfig freshHandlerState).2.attemptTimes =
      [0, 1000, 3000, 7000] := by
  decide

/-- Witness for `retryable_exhaustion_run` on the `server-error`
scenario from a fresh handler. -/
theorem retryable_exhaustion_run_witness :
    (makeRequestWithRetry
        { op := fun n => APIResult.err
            ((fun _ => "Internal Server Error (500)") n),
          dur := fun _ => 0, maxRetries := 3, baseDelay := 1000,
          backoffType := "exponential" } freshHandlerState).2.stats.totalRetries =
      3 ∧
    (makeRequestWithRetry
        { op := fun n => APIResult.err
            ((fun _ => "Internal Server Error (500)") n),
          dur := fun _ => 0, maxRetries := 3, baseDelay := 1000,
          backoffType := "exponential" } freshHandlerState).2.waits =
      [1000, 2000, 4000] := by
  have h := retryable_exhaustion_run (fun _ => "Internal Server Error (500)")
    (fun _ => 0) freshHandlerState rfl
    (fun n => by
      show isRetryableError "Internal Server Error (500)" = true
      decide)
  refine ⟨?_, ?_⟩
  · rw [h.2.2.1]
    rfl
  · rw [h.2.2.2.2]
    rfl
